import Mathlib

/-
Verification of a FAT32 boot-sector / directory-entry decoder.

The program decodes raw on-disk FAT32 structures: the common boot sector
(36 bytes), the FAT32 extended BPB (54 bytes), and 32-byte directory
slots, reassembling long-file-name (LFN) fragments that precede each
short (8.3) entry.

Bytes are modelled as `Nat` values (< 256 where it matters, stated as
hypotheses); byte windows as `List Nat`, indexed with `List.getD`.
Rust's `u8`/`u16`/`u32` arithmetic here never overflows (the code only
composes bytes upward with shifts and ors, and masks downward), so no
modular reduction is needed except where noted.  The one 8-bit bitwise
complement in the source (`!0x40` on `u8`) is rendered as
`0xFF ^^^ 0x40`.
-/

namespace Fat32

/-- The 8.3 short directory entry, field for field as in the source
struct `Standard8Point3Format`.  Fixed-size byte-array fields are lists
of byte values. -/
structure Standard8Point3Format where
  filename : List Nat
  attributes : Nat
  reserved1 : Nat
  created_tenths_seconds : Nat
  created_time : List Nat
  created_date : List Nat
  last_access_date : List Nat
  highbits_cluster_number : List Nat
  last_update_time : List Nat
  last_update_date : List Nat
  lowbits_cluster_number : List Nat
  filesize : List Nat
deriving DecidableEq

/-- Decoding of a 32-byte slot into a short entry
(`impl From<[u8; 32]> for Standard8Point3Format`): each field copies the
slot bytes of its fixed sub-range. -/
def Standard8Point3Format.ofBytes (t : List Nat) : Standard8Point3Format where
  filename := [t.getD 0 0, t.getD 1 0, t.getD 2 0, t.getD 3 0, t.getD 4 0,
    t.getD 5 0, t.getD 6 0, t.getD 7 0, t.getD 8 0, t.getD 9 0, t.getD 10 0]
  attributes := t.getD 11 0
  reserved1 := t.getD 12 0
  created_tenths_seconds := t.getD 13 0
  created_time := [t.getD 14 0, t.getD 15 0]
  created_date := [t.getD 16 0, t.getD 17 0]
  last_access_date := [t.getD 18 0, t.getD 19 0]
  highbits_cluster_number := [t.getD 20 0, t.getD 21 0]
  last_update_time := [t.getD 22 0, t.getD 23 0]
  last_update_date := [t.getD 24 0, t.getD 25 0]
  lowbits_cluster_number := [t.getD 26 0, t.getD 27 0]
  filesize := [t.getD 28 0, t.getD 29 0, t.getD 30 0, t.getD 31 0]

/-- A long-file-name fragment slot, field for field as in the source
struct `LongFileName` (`attribute_` renders the source field
`attribute`, which is a Lean keyword). -/
structure LongFileName where
  order : Nat
  first5chars : List Nat
  attribute_ : Nat
  entry_type : Nat
  checksum : Nat
  next6chars : List Nat
  zeros : List Nat
  final2chars : List Nat
deriving DecidableEq

/-- Decoding of a 32-byte slot into an LFN fragment
(`impl From<[u8; 32]> for LongFileName`).  The source computes the order
field as `target[0] & (!0x40 & 0x0F)`; on `u8`, `!0x40` is
`0xFF ^^^ 0x40`. -/
def LongFileName.ofBytes (t : List Nat) : LongFileName where
  order := t.getD 0 0 &&& ((0xFF ^^^ 0x40) &&& 0x0F)
  first5chars := [t.getD 1 0, t.getD 2 0, t.getD 3 0, t.getD 4 0, t.getD 5 0,
    t.getD 6 0, t.getD 7 0, t.getD 8 0, t.getD 9 0, t.getD 10 0]
  attribute_ := t.getD 11 0
  entry_type := t.getD 12 0
  checksum := t.getD 13 0
  next6chars := [t.getD 14 0, t.getD 15 0, t.getD 16 0, t.getD 17 0,
    t.getD 18 0, t.getD 19 0, t.getD 20 0, t.getD 21 0, t.getD 22 0,
    t.getD 23 0, t.getD 24 0, t.getD 25 0]
  zeros := [t.getD 26 0, t.getD 27 0]
  final2chars := [t.getD 28 0, t.getD 29 0, t.getD 30 0, t.getD 31 0]

/-- One logical directory entry: accumulated LFN fragments plus the
terminating short entry (source struct `DirEntry`). -/
structure DirEntry where
  long_name : List LongFileName
  meta : Standard8Point3Format
deriving DecidableEq

/-- The all-zero entry used to (re)initialise the scan accumulator
(`impl Default for DirEntry`). -/
def DirEntry.default : DirEntry where
  long_name := []
  meta :=
    { filename := [0, 0, 0, 0, 0, 0, 0, 0, 0, 0, 0]
      attributes := 0
      reserved1 := 0
      created_tenths_seconds := 0
      created_time := [0, 0]
      created_date := [0, 0]
      last_access_date := [0, 0]
      highbits_cluster_number := [0, 0]
      last_update_time := [0, 0]
      last_update_date := [0, 0]
      lowbits_cluster_number := [0, 0]
      filesize := [0, 0, 0, 0] }

/-- The byte sequence built by `DirEntry::name`: for each fragment in
list order, the 13 low bytes of its UCS-2 code units (indices 0, 2, 4, …
of each storage field) are collected, and each fragment's bytes are
placed IN FRONT of the bytes collected so far (`name.append(&mut
name_parts)` in the source).  The source finally converts these bytes to
text with `String::from_utf8_lossy`; the claims are about the byte
sequence itself, so the embedding stops there. -/
def DirEntry.nameBytes (e : DirEntry) : List Nat :=
  e.long_name.foldl
    (fun name_parts part =>
      [part.first5chars.getD 0 0, part.first5chars.getD 2 0,
       part.first5chars.getD 4 0, part.first5chars.getD 6 0,
       part.first5chars.getD 8 0,
       part.next6chars.getD 0 0, part.next6chars.getD 2 0,
       part.next6chars.getD 4 0, part.next6chars.getD 6 0,
       part.next6chars.getD 8 0, part.next6chars.getD 10 0,
       part.final2chars.getD 0 0, part.final2chars.getD 2 0] ++ name_parts)
    []

/-- `DirEntry::cluster`: the 32-bit starting cluster from the high and
low 16-bit word bytes. -/
def DirEntry.cluster (e : DirEntry) : Nat :=
  let hi := e.meta.highbits_cluster_number
  let lo := e.meta.lowbits_cluster_number
  (hi.getD 1 0 <<< 24) ||| (hi.getD 0 0 <<< 16) ||| (lo.getD 1 0 <<< 8) ||| lo.getD 0 0

/-- `DirEntry::size`: the 32-bit file size from its 4 bytes. -/
def DirEntry.size (e : DirEntry) : Nat :=
  let filesize := e.meta.filesize
  (filesize.getD 3 0 <<< 24) ||| (filesize.getD 2 0 <<< 16) |||
    (filesize.getD 1 0 <<< 8) ||| filesize.getD 0 0

/-- Seconds sub-field of `datetime`: `time[0] & 0x1F`. -/
def dtSeconds (time : List Nat) : Nat := time.getD 0 0 &&& 0x1F

/-- Minutes sub-field of `datetime`:
`((time[1] & 0x07) << 3) | ((time[0] & 0xE0) >> 5)`. -/
def dtMinutes (time : List Nat) : Nat :=
  ((time.getD 1 0 &&& 0x07) <<< 3) ||| ((time.getD 0 0 &&& 0xE0) >>> 5)

/-- Hours sub-field of `datetime`: `(time[1] & 0xF8) >> 3`. -/
def dtHours (time : List Nat) : Nat := (time.getD 1 0 &&& 0xF8) >>> 3

/-- Day sub-field of `datetime`: `date[0] & 0x1F`. -/
def dtDay (date : List Nat) : Nat := date.getD 0 0 &&& 0x1F

/-- Month sub-field of `datetime`:
`((date[1] & 0x01) << 3) | ((date[0] & 0xE0) >> 5)`. -/
def dtMonth (date : List Nat) : Nat :=
  ((date.getD 1 0 &&& 0x01) <<< 3) ||| ((date.getD 0 0 &&& 0xE0) >>> 5)

/-- Year sub-field of `datetime`: `((date[1] & 0xFE) >> 1) + 1980`. -/
def dtYear (date : List Nat) : Nat :=
  ((date.getD 1 0 &&& 0xFE) >>> 1) + 1980

/-- `datetime(date, time)`: renders
`"{year}-{month}-{day}T{hours}:{minutes}:{seconds}"` with Rust's
unpadded decimal integer formatting (= `toString` on `Nat`). -/
def datetime (date time : List Nat) : String :=
  toString (dtYear date) ++ "-" ++ toString (dtMonth date) ++ "-" ++
    toString (dtDay date) ++ "T" ++ toString (dtHours time) ++ ":" ++
    toString (dtMinutes time) ++ ":" ++ toString (dtSeconds time)

/-- The common boot-sector record, field for field as in the source
struct `FATHeader`. -/
structure FATHeader where
  bootjmp : List Nat
  oem_name : List Nat
  bytes_per_sector : Nat
  sectors_per_cluster : Nat
  reserved_sector_count : Nat
  table_count : Nat
  root_entry_count : Nat
  total_sectors_16 : Nat
  media_type : Nat
  table_size_16 : Nat
  sectors_per_track : Nat
  head_side_count : Nat
  hidden_sector_count : Nat
  total_sectors_32 : Nat
deriving DecidableEq

/-- Decoding of the 36-byte boot-sector window
(`impl From<[u8; FATHEADER_SIZE]> for FATHeader`), with exactly the
source's byte indices and shift directions.  Note the source composes
the two 32-bit fields with the LOWER-offset byte shifted HIGHER
(`(target[28] << 24) | … | target[31]`), unlike the 16-bit fields. -/
def FATHeader.ofBytes (t : List Nat) : FATHeader where
  bootjmp := [t.getD 0 0, t.getD 1 0, t.getD 2 0]
  oem_name := [t.getD 3 0, t.getD 4 0, t.getD 5 0, t.getD 6 0, t.getD 7 0,
    t.getD 8 0, t.getD 9 0, t.getD 10 0]
  bytes_per_sector := (t.getD 12 0 <<< 8) ||| t.getD 11 0
  sectors_per_cluster := t.getD 13 0
  reserved_sector_count := (t.getD 15 0 <<< 8) ||| t.getD 14 0
  table_count := t.getD 16 0
  root_entry_count := (t.getD 18 0 <<< 8) ||| t.getD 17 0
  total_sectors_16 := (t.getD 20 0 <<< 8) ||| t.getD 19 0
  media_type := t.getD 21 0
  table_size_16 := (t.getD 23 0 <<< 8) ||| t.getD 22 0
  sectors_per_track := (t.getD 25 0 <<< 8) ||| t.getD 24 0
  head_side_count := (t.getD 27 0 <<< 8) ||| t.getD 26 0
  hidden_sector_count := (t.getD 28 0 <<< 24) ||| (t.getD 29 0 <<< 16) |||
    (t.getD 30 0 <<< 8) ||| t.getD 31 0
  total_sectors_32 := (t.getD 32 0 <<< 24) ||| (t.getD 33 0 <<< 16) |||
    (t.getD 34 0 <<< 8) ||| t.getD 35 0

/-- The FAT32 extended-BPB record, field for field as in the source
struct `FAT32Ext`. -/
structure FAT32Ext where
  table_size_32 : Nat
  extended_flags : Nat
  fat_version : Nat
  root_cluster : Nat
  fat_info : Nat
  backup_bs_sector : Nat
  reserved_0 : List Nat
  drive_number : Nat
  reserved_1 : Nat
  boot_signature : Nat
  volume_id : Nat
  volume_label : List Nat
  fat_type_label : List Nat
deriving DecidableEq

/-- Decoding of the 54-byte extension window
(`impl From<[u8; FAT32EXT_SIZE]> for FAT32Ext`).  The source hard-codes
`reserved_0: [0; 12]` and never reads window offsets 16–27. -/
def FAT32Ext.ofBytes (t : List Nat) : FAT32Ext where
  table_size_32 := (t.getD 3 0 <<< 24) ||| (t.getD 2 0 <<< 16) |||
    (t.getD 1 0 <<< 8) ||| t.getD 0 0
  extended_flags := (t.getD 5 0 <<< 8) ||| t.getD 4 0
  fat_version := (t.getD 7 0 <<< 8) ||| t.getD 6 0
  root_cluster := (t.getD 11 0 <<< 24) ||| (t.getD 10 0 <<< 16) |||
    (t.getD 9 0 <<< 8) ||| t.getD 8 0
  fat_info := (t.getD 13 0 <<< 8) ||| t.getD 12 0
  backup_bs_sector := (t.getD 15 0 <<< 8) ||| t.getD 14 0
  reserved_0 := List.replicate 12 0
  drive_number := t.getD 28 0
  reserved_1 := t.getD 29 0
  boot_signature := t.getD 30 0
  volume_id := (t.getD 34 0 <<< 24) ||| (t.getD 33 0 <<< 16) |||
    (t.getD 32 0 <<< 8) ||| t.getD 31 0
  volume_label := [t.getD 35 0, t.getD 36 0, t.getD 37 0, t.getD 38 0,
    t.getD 39 0, t.getD 40 0, t.getD 41 0, t.getD 42 0, t.getD 43 0,
    t.getD 44 0, t.getD 45 0]
  fat_type_label := [t.getD 46 0, t.getD 47 0, t.getD 48 0, t.getD 49 0,
    t.getD 50 0, t.getD 51 0, t.getD 52 0, t.getD 53 0]

/-- The directory-scan loop of `main`, one iteration per remaining
count.  `region` is the unread tail of the byte source at the directory
offset; `buffer` is the persistent 32-byte read buffer.  A `read` call
fills the first `min region.length 32` buffer bytes and leaves the rest
of the buffer unchanged (the source ignores the returned read count).
A slot whose first byte is 0 stops the scan; byte 11 = 0x0F accumulates
an LFN fragment (`Vec::push`, i.e. append); anything else flushes one
`DirEntry` and resets the accumulator. -/
def scanDir : Nat → List Nat → List Nat → DirEntry → List DirEntry → List DirEntry
  | 0, _, _, _, entries => entries
  | n + 1, region, buffer, cur, entries =>
    let k := min region.length 32
    let buf := region.take k ++ buffer.drop k
    if buf.getD 0 0 = 0 then entries
    else if buf.getD 11 0 = 0x0F then
      scanDir n (region.drop k) buf
        { cur with long_name := cur.long_name ++ [LongFileName.ofBytes buf] } entries
    else
      scanDir n (region.drop k) buf DirEntry.default
        (entries ++ [{ long_name := cur.long_name, meta := Standard8Point3Format.ofBytes buf }])

/-- Entry point of the directory scan: zeroed buffer, default
accumulator, empty result list, `no_entries` loop iterations over the
directory region's bytes. -/
def scanDirEntries (no_entries : Nat) (region : List Nat) : List DirEntry :=
  scanDir no_entries region (List.replicate 32 0) DirEntry.default []

/-- Spec-side description used for comparison in the name-reassembly
claim: the 13 low bytes of a 32-byte LFN slot's UCS-2 code units, in
storage field order (name characters 1–13). -/
def lfnChars (s : List Nat) : List Nat :=
  [s.getD 1 0, s.getD 3 0, s.getD 5 0, s.getD 7 0, s.getD 9 0,
   s.getD 14 0, s.getD 16 0, s.getD 18 0, s.getD 20 0, s.getD 22 0,
   s.getD 24 0, s.getD 28 0, s.getD 30 0]

/-- Or-ing a left-shifted value with a small value is addition: the
byte-composition pattern `(a << i) | b` used throughout the decoders. -/
lemma lor_shift_add (i m a b : Nat) (hm : 2 ^ i = m) (hb : b < m) :
    (a <<< i) ||| b = m * a + b := by
  subst hm
  rw [Nat.shiftLeft_eq, Nat.mul_comm, ← Nat.mul_add_lt_is_or hb a]

/-- Two-byte composition `(b1 << 8) | b0` is the value `b0 + 256 * b1`. -/
lemma byte2_comp (b0 b1 : Nat) (h0 : b0 < 256) :
    (b1 <<< 8) ||| b0 = b0 + 256 * b1 := by
  rw [lor_shift_add 8 256 b1 b0 (by norm_num) h0]
  omega

/-- Four-byte composition `(b3 << 24) | (b2 << 16) | (b1 << 8) | b0`
is the value `b0 + 256 * b1 + 65536 * b2 + 16777216 * b3`. -/
lemma byte4_comp (b0 b1 b2 b3 : Nat) (h0 : b0 < 256) (h1 : b1 < 256)
    (h2 : b2 < 256) :
    (b3 <<< 24) ||| (b2 <<< 16) ||| (b1 <<< 8) ||| b0
      = b0 + 256 * b1 + 65536 * b2 + 16777216 * b3 := by
  rw [Nat.or_assoc, Nat.or_assoc,
    lor_shift_add 8 256 b1 b0 (by norm_num) h0,
    lor_shift_add 16 65536 b2 (256 * b1 + b0) (by norm_num) (by omega),
    lor_shift_add 24 16777216 b3 (65536 * b2 + (256 * b1 + b0)) (by norm_num)
      (by omega)]
  omega

/-- The last element of a list of 32-byte slots (with a 32-byte
fallback) again has length 32. -/
lemma getLastD_length_32 (frags : List (List Nat)) (d : List Nat)
    (hf : ∀ f ∈ frags, f.length = 32) (hd : d.length = 32) :
    (frags.getLastD d).length = 32 := by
  induction frags generalizing d with
  | nil => exact hd
  | cons f fs ih =>
    rw [List.getLastD_cons]
    exact ih f (fun g hg => hf g (List.mem_cons_of_mem _ hg))
      (hf f (List.mem_cons_self _ _))

/-- An LFN slot whose decoded order is non-zero has a non-zero first
byte (the scan's end-of-directory test cannot fire on it). -/
lemma first_byte_ne_zero_of_order {s : List Nat} {k : Nat}
    (h : (LongFileName.ofBytes s).order = k) (hk : k ≠ 0) :
    s.getD 0 0 ≠ 0 := by
  intro h0
  apply hk
  rw [← h]
  simp only [LongFileName.ofBytes]
  rw [h0]
  decide

/-- Running the scan loop over a block of LFN slots: each slot is read
into the buffer whole, classified by its byte 11 = 0x0F, decoded, and
PUSHED onto the back of the accumulator's fragment list; the loop then
continues on the rest of the region with the budget reduced by the
number of slots consumed. -/
lemma scanDir_lfn_run (frags : List (List Nat)) (n : Nat)
    (region buffer : List Nat) (cur : DirEntry) (entries : List DirEntry)
    (hf : ∀ f ∈ frags, f.length = 32 ∧ f.getD 0 0 ≠ 0 ∧ f.getD 11 0 = 0x0F)
    (hb : buffer.length = 32) :
    scanDir (frags.length + n) (frags.flatten ++ region) buffer cur entries
      = scanDir n region (frags.getLastD buffer)
          { cur with
            long_name := cur.long_name ++ frags.map LongFileName.ofBytes }
          entries := by
  induction frags generalizing buffer cur with
  | nil =>
    simp
  | cons f fs ih =>
    obtain ⟨hf32, hf0, hf11⟩ := hf f (List.mem_cons_self f fs)
    have hffs : ∀ g ∈ fs, g.length = 32 ∧ g.getD 0 0 ≠ 0 ∧ g.getD 11 0 = 0x0F :=
      fun g hg => hf g (List.mem_cons_of_mem _ hg)
    have hstep : (f :: fs).length + n = (fs.length + n) + 1 := by
      simp only [List.length_cons]
      omega
    rw [hstep, List.flatten_cons, List.append_assoc]
    have hmin : min (f ++ (fs.flatten ++ region)).length 32 = 32 := by
      rw [List.length_append, hf32]
      omega
    have hbufdrop : buffer.drop 32 = [] :=
      List.drop_eq_nil_of_le (by omega)
    simp only [scanDir, hmin, List.take_left' hf32, List.drop_left' hf32,
      hbufdrop, List.append_nil]
    rw [if_neg hf0, if_pos hf11]
    rw [ih f { cur with long_name := cur.long_name ++ [LongFileName.ofBytes f] }
      hffs hf32]
    rw [List.getLastD_cons]
    simp [List.append_assoc]

/-- Scanning a directory region made of a block of LFN slots followed
by one terminating short slot, with a loop budget of exactly one entry
more than the number of fragments, yields a single `DirEntry` whose
fragment list holds the fragments in the order they were encountered
on disk. -/
lemma scan_frags_then_short (frags : List (List Nat)) (s : List Nat)
    (hf : ∀ f ∈ frags, f.length = 32 ∧ f.getD 0 0 ≠ 0 ∧ f.getD 11 0 = 0x0F)
    (hs32 : s.length = 32) (hs0 : s.getD 0 0 ≠ 0)
    (hs11 : s.getD 11 0 ≠ 0x0F) :
    scanDirEntries (frags.length + 1) (frags.flatten ++ s)
      = [{ long_name := frags.map LongFileName.ofBytes,
           meta := Standard8Point3Format.ofBytes s }] := by
  rw [scanDirEntries,
    scanDir_lfn_run frags 1 s (List.replicate 32 0) DirEntry.default [] hf
      (by simp)]
  have hblen : (frags.getLastD (List.replicate 32 0)).length = 32 :=
    getLastD_length_32 _ _ (fun f hf' => (hf f hf').1) (by simp)
  have hmin : min s.length 32 = 32 := by omega
  have htake : s.take 32 = s := by
    rw [← hs32]
    exact List.take_length s
  have hdrop : (frags.getLastD (List.replicate 32 0)).drop 32 = [] :=
    List.drop_eq_nil_of_le (by omega)
  simp only [scanDir, hmin, htake, hdrop, List.append_nil]
  rw [if_neg hs0, if_neg hs11]
  simp [DirEntry.default]

/-- C1: the claim says every multi-byte integer field of the decoded
boot sector, including the two 32-bit fields, is the little-endian
interpretation of its window bytes.  The decoder instead composes
`hidden_sector_count` and `total_sectors_32` big-endian: on the window
whose bytes at offsets 28–31 are `01 00 00 00` and at 32–35 are
`02 00 00 00` (little-endian values 1 and 2), it yields 16777216 and
33554432. -/
theorem c1_32bit_fields_decoded_big_endian :
    (FATHeader.ofBytes
        (List.replicate 28 0 ++ [1, 0, 0, 0, 2, 0, 0, 0])).hidden_sector_count
      = 16777216 ∧
    (FATHeader.ofBytes
        (List.replicate 28 0 ++ [1, 0, 0, 0, 2, 0, 0, 0])).total_sectors_32
      = 33554432 ∧
    (List.replicate 28 0 ++ [1, 0, 0, 0, 2, 0, 0, 0]).getD 28 0 +
      256 * (List.replicate 28 0 ++ [1, 0, 0, 0, 2, 0, 0, 0]).getD 29 0 +
      65536 * (List.replicate 28 0 ++ [1, 0, 0, 0, 2, 0, 0, 0]).getD 30 0 +
      16777216 * (List.replicate 28 0 ++ [1, 0, 0, 0, 2, 0, 0, 0]).getD 31 0
      = 1 ∧
    (List.replicate 28 0 ++ [1, 0, 0, 0, 2, 0, 0, 0]).getD 32 0 +
      256 * (List.replicate 28 0 ++ [1, 0, 0, 0, 2, 0, 0, 0]).getD 33 0 +
      65536 * (List.replicate 28 0 ++ [1, 0, 0, 0, 2, 0, 0, 0]).getD 34 0 +
      16777216 * (List.replicate 28 0 ++ [1, 0, 0, 0, 2, 0, 0, 0]).getD 35 0
      = 2 := by
  decide

/-- C2 (counterexample): with high-word bytes `[0x02, 0x00]` and
low-word bytes `[0x05, 0x00]`, `cluster()` does NOT return `0x00000205`
as the claim states (it returns `0x00020005`). -/
theorem c2_cluster_spec_example_value_wrong :
    ¬ (DirEntry.cluster
        { long_name := []
          meta := { DirEntry.default.meta with
                      highbits_cluster_number := [0x02, 0x00]
                      lowbits_cluster_number := [0x05, 0x00] } }
        = 0x00000205) := by
  decide

/-- C2 (amended): with high-word bytes `[0x02, 0x00]` and low-word
bytes `[0x05, 0x00]`, `cluster()` returns `0x00020005`; in general it
composes the 32-bit cluster as `loword + 65536 * hiword`, each word
little-endian, the low word occupying bits 0–15. -/
theorem c2_cluster_composition :
    (∀ e : DirEntry, e.meta.highbits_cluster_number = [0x02, 0x00] →
      e.meta.lowbits_cluster_number = [0x05, 0x00] →
      e.cluster = 0x00020005) ∧
    (∀ ha hb la lb : Nat, ha < 256 → hb < 256 → la < 256 → lb < 256 →
      ∀ e : DirEntry, e.meta.highbits_cluster_number = [ha, hb] →
        e.meta.lowbits_cluster_number = [la, lb] →
        e.cluster = (la + 256 * lb) + 65536 * (ha + 256 * hb)) := by
  constructor
  · intro e hhi hlo
    simp only [DirEntry.cluster, hhi, hlo]
    decide
  · intro ha hb la lb hha hhb hla hlb e hhi hlo
    simp only [DirEntry.cluster, hhi, hlo, List.getD_cons_zero,
      List.getD_cons_succ]
    rw [byte4_comp la lb ha hb hla hlb hha]
    omega

/-- C2 witness: the amended claim instantiated at the concrete example
entry. -/
theorem c2_cluster_composition_witness :
    DirEntry.cluster
      { long_name := []
        meta := { DirEntry.default.meta with
                    highbits_cluster_number := [0x02, 0x00]
                    lowbits_cluster_number := [0x05, 0x00] } }
      = 0x00020005 :=
  c2_cluster_composition.1 _ rfl rfl

/-- Masking with 15 is reduction mod 16. -/
lemma and_fifteen (x : Nat) : x &&& 15 = x % 16 := by
  have h := Nat.and_pow_two_sub_one_eq_mod x 4
  norm_num at h
  exact h

/-- C3 (counterexample): scanning two distinct LFN slots (payloads `A`
then `B` in disk order) followed by a short slot does NOT leave the
fragment list in reversed order `[B, A]` as the claim's prepending
would produce. -/
theorem c3_fragments_not_prepended :
    ¬ ((scanDirEntries 3
          ((0x41 :: List.replicate 10 0 ++ 0x0F :: List.replicate 20 0) ++
            (0x42 :: List.replicate 10 1 ++ 0x0F :: List.replicate 20 1) ++
            0x43 :: List.replicate 31 0)).map DirEntry.long_name
        = [[LongFileName.ofBytes
              (0x42 :: List.replicate 10 1 ++ 0x0F :: List.replicate 20 1),
            LongFileName.ofBytes
              (0x41 :: List.replicate 10 0 ++ 0x0F :: List.replicate 20 0)]]) := by
  decide

/-- C3 (amended): a slot with byte 11 = 0x0F is decoded as a
`LongFileName` and APPENDED (`Vec::push`) to the accumulator's fragment
list, so after scanning fragments f1, …, fn the list is [f1, …, fn] in
encounter order; the logical entry flushed by the next short slot
carries exactly that list. -/
theorem c3_fragments_appended (frags : List (List Nat)) (s : List Nat)
    (hf : ∀ f ∈ frags, f.length = 32 ∧ f.getD 0 0 ≠ 0 ∧ f.getD 11 0 = 0x0F)
    (hs32 : s.length = 32) (hs0 : s.getD 0 0 ≠ 0)
    (hs11 : s.getD 11 0 ≠ 0x0F) :
    scanDirEntries (frags.length + 1) (frags.flatten ++ s)
      = [{ long_name := frags.map LongFileName.ofBytes,
           meta := Standard8Point3Format.ofBytes s }] :=
  scan_frags_then_short frags s hf hs32 hs0 hs11

/-- C3 witness: the amended claim at two concrete fragments and one
short slot. -/
theorem c3_fragments_appended_witness :
    scanDirEntries 3
        (List.flatten
          [0x41 :: List.replicate 10 0 ++ 0x0F :: List.replicate 20 0,
           0x42 :: List.replicate 10 1 ++ 0x0F :: List.replicate 20 1] ++
          0x43 :: List.replicate 31 0)
      = [{ long_name :=
             [LongFileName.ofBytes
                (0x41 :: List.replicate 10 0 ++ 0x0F :: List.replicate 20 0),
              LongFileName.ofBytes
                (0x42 :: List.replicate 10 1 ++ 0x0F :: List.replicate 20 1)],
           meta := Standard8Point3Format.ofBytes
             (0x43 :: List.replicate 31 0) }] :=
  c3_fragments_appended
    [0x41 :: List.replicate 10 0 ++ 0x0F :: List.replicate 20 0,
     0x42 :: List.replicate 10 1 ++ 0x0F :: List.replicate 20 1]
    (0x43 :: List.replicate 31 0)
    (by decide) (by decide) (by decide) (by decide)

/-- C4 (counterexample): on a slot whose first byte is `0x10`, the
decoded order field is 0, not the low 5 bits (`0x10 & 0x1F = 0x10`) the
claim predicts. -/
theorem c4_order_not_low_five_bits :
    ¬ ((LongFileName.ofBytes (0x10 :: List.replicate 31 0)).order
        = (0x10 :: List.replicate 31 0).getD 0 0 &&& 0x1F) := by
  decide

/-- C4 (amended): the decoded sequence-order field is the slot's first
byte with the 0x40 flag and the top FOUR bits masked off — the source
mask is `!0x40 & 0x0F = 0x0F`, so the order is the first byte's low 4
bits, i.e. its value mod 16. -/
theorem c4_order_low_four_bits (t : List Nat) :
    (LongFileName.ofBytes t).order = t.getD 0 0 % 16 := by
  have hmask : (0xFF ^^^ 0x40) &&& 0x0F = 15 := by decide
  simp only [LongFileName.ofBytes, hmask, and_fifteen]

/-- C5: scanning exactly two LFN fragments with orders 2 then 1 (in
that disk order) followed by one short entry, with an entry budget of
3, produces exactly one logical entry, and the name bytes it yields are
the 13 low bytes of the order-1 fragment followed by the 13 low bytes
of the order-2 fragment, each in storage field order. -/
theorem c5_two_lfn_then_short (s1 s2 s3 : List Nat)
    (h1len : s1.length = 32) (h1attr : s1.getD 11 0 = 0x0F)
    (h1ord : (LongFileName.ofBytes s1).order = 2)
    (h2len : s2.length = 32) (h2attr : s2.getD 11 0 = 0x0F)
    (h2ord : (LongFileName.ofBytes s2).order = 1)
    (h3len : s3.length = 32) (h3first : s3.getD 0 0 ≠ 0)
    (h3attr : s3.getD 11 0 ≠ 0x0F) :
    scanDirEntries 3 (s1 ++ s2 ++ s3)
      = [{ long_name := [LongFileName.ofBytes s1, LongFileName.ofBytes s2],
           meta := Standard8Point3Format.ofBytes s3 }] ∧
    DirEntry.nameBytes
        { long_name := [LongFileName.ofBytes s1, LongFileName.ofBytes s2],
          meta := Standard8Point3Format.ofBytes s3 }
      = lfnChars s2 ++ lfnChars s1 := by
  constructor
  · have h := scan_frags_then_short [s1, s2] s3
      (by
        intro f hfm
        simp only [List.mem_cons, List.not_mem_nil, or_false] at hfm
        rcases hfm with rfl | rfl
        · exact ⟨h1len, first_byte_ne_zero_of_order h1ord (by omega), h1attr⟩
        · exact ⟨h2len, first_byte_ne_zero_of_order h2ord (by omega), h2attr⟩)
      h3len h3first h3attr
    simpa [List.append_assoc] using h
  · simp [DirEntry.nameBytes, LongFileName.ofBytes, lfnChars]

/-- C5 witness: concrete fragment slots with order bytes 2 and 1 and a
concrete short slot. -/
theorem c5_two_lfn_then_short_witness :
    scanDirEntries 3
        ((0x02 :: List.replicate 10 65 ++ 0x0F :: List.replicate 20 66) ++
          (0x01 :: List.replicate 10 67 ++ 0x0F :: List.replicate 20 68) ++
          0x44 :: List.replicate 31 2)
      = [{ long_name :=
             [LongFileName.ofBytes
                (0x02 :: List.replicate 10 65 ++ 0x0F :: List.replicate 20 66),
              LongFileName.ofBytes
                (0x01 :: List.replicate 10 67 ++ 0x0F :: List.replicate 20 68)],
           meta := Standard8Point3Format.ofBytes
             (0x44 :: List.replicate 31 2) }] ∧
    DirEntry.nameBytes
        { long_name :=
            [LongFileName.ofBytes
               (0x02 :: List.replicate 10 65 ++ 0x0F :: List.replicate 20 66),
             LongFileName.ofBytes
               (0x01 :: List.replicate 10 67 ++ 0x0F :: List.replicate 20 68)],
          meta := Standard8Point3Format.ofBytes
            (0x44 :: List.replicate 31 2) }
      = lfnChars (0x01 :: List.replicate 10 67 ++ 0x0F :: List.replicate 20 68)
          ++ lfnChars
            (0x02 :: List.replicate 10 65 ++ 0x0F :: List.replicate 20 66) :=
  c5_two_lfn_then_short
    (0x02 :: List.replicate 10 65 ++ 0x0F :: List.replicate 20 66)
    (0x01 :: List.replicate 10 67 ++ 0x0F :: List.replicate 20 68)
    (0x44 :: List.replicate 31 2)
    (by decide) (by decide) (by decide) (by decide) (by decide) (by decide)
    (by decide) (by decide) (by decide)

/-- C6: a slot whose first byte is 0x00 terminates the scan: a whole
scan over a region whose first byte is 0 returns the empty list, and
in general an iteration whose freshly filled buffer starts with 0
returns the entries flushed so far, without converting the slot. -/
theorem c6_end_of_directory_returns_empty :
    (∀ (n : Nat) (region : List Nat), region.getD 0 0 = 0 →
      scanDirEntries n region = []) ∧
    (∀ (n : Nat) (region buffer : List Nat) (cur : DirEntry)
        (entries : List DirEntry),
      (region.take (min region.length 32) ++
          buffer.drop (min region.length 32)).getD 0 0 = 0 →
      scanDir (n + 1) region buffer cur entries = entries) := by
  have key : ∀ (n : Nat) (region buffer : List Nat) (cur : DirEntry)
      (entries : List DirEntry),
      (region.take (min region.length 32) ++
          buffer.drop (min region.length 32)).getD 0 0 = 0 →
      scanDir (n + 1) region buffer cur entries = entries := by
    intro n region buffer cur entries h
    simp only [scanDir]
    rw [if_pos h]
  constructor
  · intro n region h
    cases n with
    | zero => rfl
    | succ n =>
      rw [scanDirEntries]
      apply key
      cases region with
      | nil => decide
      | cons r rs =>
        have hr : r = 0 := by simpa using h
        have hpos : 0 < min (r :: rs).length 32 := by
          simp only [List.length_cons]
          omega
        obtain ⟨m, hm⟩ :=
          Nat.exists_eq_succ_of_ne_zero (Nat.pos_iff_ne_zero.mp hpos)
        rw [hm, List.take_succ_cons, List.cons_append, List.getD_cons_zero, hr]
  · exact key

/-- C6 witness: a region whose first byte is 0 scans to the empty list;
a loop iteration seeing a zero first byte returns the accumulated
entries (here none). -/
theorem c6_end_of_directory_returns_empty_witness :
    scanDirEntries 4 (0 :: List.replicate 95 7) = [] ∧
    scanDir 1 (0 :: List.replicate 9 9) (List.replicate 32 5)
      DirEntry.default [] = [] :=
  ⟨c6_end_of_directory_returns_empty.1 4 _ (by decide),
   c6_end_of_directory_returns_empty.2 0 _ _ _ _ (by decide)⟩

/-- C7: the claim says a region shorter than `max_entries * 32` bytes
fails with a `TruncatedInput` error.  The code has no such error path:
it ignores the count returned by `read`.  On a 1-byte region with entry
budget 1, it silently decodes a short entry out of the zero-filled rest
of the buffer; on an empty region it silently returns the empty list. -/
theorem c7_truncated_region_scans_without_error :
    scanDirEntries 1 [0x41]
      = [{ long_name := [],
           meta := Standard8Point3Format.ofBytes
             (0x41 :: List.replicate 31 0) }] ∧
    scanDirEntries 1 [] = [] := by
  decide

/-- C8: whenever the packed date field decodes to year 2017 (offset
37), month 6, day 15 and the packed time field decodes to hour 10,
minute 30, second tick 0, `datetime` renders exactly
`"2017-6-15T10:30:0"` — year is 1980 + the 7-bit field, month/day
unpadded, and the 5-bit second tick emitted without doubling. -/
theorem c8_datetime_render (date time : List Nat)
    (hy : dtYear date = 2017) (hmo : dtMonth date = 6)
    (hd : dtDay date = 15) (hh : dtHours time = 10)
    (hmi : dtMinutes time = 30) (hs : dtSeconds time = 0) :
    datetime date time = "2017-6-15T10:30:0" := by
  rw [datetime, hy, hmo, hd, hh, hmi, hs]
  rfl

/-- C8 witness: the concrete packed bytes `date = [207, 74]`,
`time = [192, 83]` encode exactly those field values. -/
theorem c8_datetime_render_witness :
    datetime [207, 74] [192, 83] = "2017-6-15T10:30:0" :=
  c8_datetime_render [207, 74] [192, 83] (by decide) (by decide)
    (by decide) (by decide) (by decide) (by decide)

/-- C9: with file-size bytes `[0x00, 0x10, 0x00, 0x00]` `size()`
returns 4096, and in general `size()` composes the 32-bit file size
from its 4 bytes little-endian
(`b0 + 256 * b1 + 65536 * b2 + 16777216 * b3`). -/
theorem c9_size_little_endian :
    (∀ e : DirEntry, e.meta.filesize = [0x00, 0x10, 0x00, 0x00] →
      e.size = 4096) ∧
    (∀ b0 b1 b2 b3 : Nat, b0 < 256 → b1 < 256 → b2 < 256 → b3 < 256 →
      ∀ e : DirEntry, e.meta.filesize = [b0, b1, b2, b3] →
        e.size = b0 + 256 * b1 + 65536 * b2 + 16777216 * b3) := by
  constructor
  · intro e hf
    simp only [DirEntry.size, hf]
    decide
  · intro b0 b1 b2 b3 hb0 hb1 hb2 hb3 e hf
    simp only [DirEntry.size, hf, List.getD_cons_zero, List.getD_cons_succ]
    exact byte4_comp b0 b1 b2 b3 hb0 hb1 hb2

/-- C9 witness: the concrete file-size bytes of the claim. -/
theorem c9_size_little_endian_witness :
    DirEntry.size
      { long_name := []
        meta := { DirEntry.default.meta with
                    filesize := [0x00, 0x10, 0x00, 0x00] } }
      = 4096 :=
  c9_size_little_endian.1 _ rfl

/-- C10: the FAT32 extension decoder ignores window offsets 16–27 — the
decoded reserved region is always 12 zero bytes, and any two windows
agreeing everywhere outside offsets 16–27 decode to identical records. -/
theorem c10_reserved_region_ignored :
    (∀ t : List Nat, (FAT32Ext.ofBytes t).reserved_0 = List.replicate 12 0) ∧
    (∀ t1 t2 : List Nat,
      (∀ i : Nat, i < 54 → i < 16 ∨ 28 ≤ i → t1.getD i 0 = t2.getD i 0) →
      FAT32Ext.ofBytes t1 = FAT32Ext.ofBytes t2) := by
  constructor
  · intro t
    rfl
  · intro t1 t2 h
    have h' : ∀ i, i < 16 ∨ (28 ≤ i ∧ i < 54) → t1.getD i 0 = t2.getD i 0 :=
      fun i hi => h i (by omega) (by omega)
    unfold FAT32Ext.ofBytes
    rw [h' 0 (by omega), h' 1 (by omega), h' 2 (by omega), h' 3 (by omega),
      h' 4 (by omega), h' 5 (by omega), h' 6 (by omega), h' 7 (by omega),
      h' 8 (by omega), h' 9 (by omega), h' 10 (by omega), h' 11 (by omega),
      h' 12 (by omega), h' 13 (by omega), h' 14 (by omega), h' 15 (by omega),
      h' 28 (by omega), h' 29 (by omega), h' 30 (by omega), h' 31 (by omega),
      h' 32 (by omega), h' 33 (by omega), h' 34 (by omega), h' 35 (by omega),
      h' 36 (by omega), h' 37 (by omega), h' 38 (by omega), h' 39 (by omega),
      h' 40 (by omega), h' 41 (by omega), h' 42 (by omega), h' 43 (by omega),
      h' 44 (by omega), h' 45 (by omega), h' 46 (by omega), h' 47 (by omega),
      h' 48 (by omega), h' 49 (by omega), h' 50 (by omega), h' 51 (by omega),
      h' 52 (by omega), h' 53 (by omega)]

/-- C10 witness: two windows differing exactly on offsets 16–27 decode
to the same record. -/
theorem c10_reserved_region_ignored_witness :
    FAT32Ext.ofBytes (List.replicate 54 1)
      = FAT32Ext.ofBytes
          (List.replicate 16 1 ++ List.replicate 12 9 ++ List.replicate 26 1) :=
  c10_reserved_region_ignored.2 _ _ (by decide)

end Fat32
